import Mathlib

/-!
Verification of the attribution and funnel aggregation engine of the
attribution-analytics-dashboard repository.

The definitions below are a shallow embedding of the TypeScript source:

* `calculateAttributionModels` and its weight helpers embed the function of
  the same name in the Shopify conversion route (the five credit models:
  first-click, last-click, linear, time-decay, position-based).
* `handleSessionStart` embeds the session upsert of the tracking route.
* `processConversion`, `conversionCreate` and `handleOrderUpdate` embed the
  conversion persistence paths (Prisma `create` with the unique index on
  `conversionId` from the migration, and the `orders/updated` webhook
  handler's `updateMany`).
* `computeFunnel` / `applyFunnelRates` embed `getFunnelData` of the
  landing-page analytics route.

Numbers: JavaScript numeric literals and arithmetic are modelled exactly over
`ℚ` where the computation is rational (linear, position-based, funnel rates)
and over `ℝ` where it is transcendental (the time-decay exponential).
Timestamps are milliseconds since epoch, modelled as `ℤ`.
-/

namespace AttributionDashboard

/-- A touchpoint of a customer journey: the fields of the journey entries that
`calculateAttributionModels` and the journey metrics consume
(`tp.timestamp`, `tp.session_id`, and the UTM snapshot read for the
first-click / last-click columns). -/
structure Touchpoint where
  session_id : String
  timestamp : ℤ
  utm_source : Option String
  utm_medium : Option String
  utm_campaign : Option String
deriving DecidableEq, Repr

/-- `const halfLife = 7 * 24 * 60 * 60 * 1000` (7 days in milliseconds). -/
def halfLife : ℤ := 7 * 24 * 60 * 60 * 1000

/-- Raw time-decay weight of one touchpoint:
`Math.pow(2, -(now - tp.timestamp) / halfLife)` with `now` the clock value
(`Date.now()`) read when the conversion is processed. -/
noncomputable def timeDecayRawWeight (now : ℤ) (tp : Touchpoint) : ℝ :=
  (2 : ℝ) ^ (-(((now - tp.timestamp : ℤ) : ℝ)) / ((halfLife : ℤ) : ℝ))

/-- `timeDecayWeights.reduce((sum, weight) => sum + weight, 0)`. -/
noncomputable def totalTimeDecayWeight (now : ℤ) (j : List Touchpoint) : ℝ :=
  (j.map (timeDecayRawWeight now)).sum

/-- Normalized time-decay weights: `timeDecayWeights[index] / totalTimeDecayWeight`. -/
noncomputable def timeDecayWeights (now : ℤ) (j : List Touchpoint) : List ℝ :=
  j.map (fun tp => timeDecayRawWeight now tp / totalTimeDecayWeight now j)

/-- `const linearWeight = 1.0 / customerJourney.length`, one entry per touchpoint. -/
def linearWeights (j : List Touchpoint) : List ℚ :=
  j.map (fun _ => 1 / (j.length : ℚ))

/-- Weight the position-based branch assigns to index `i` of a journey of
length `n`: 1.0 for a singleton journey, 0.4 for the first and the last
index, `0.2 / Math.max(1, n - 2)` otherwise. -/
def positionWeight (n i : ℕ) : ℚ :=
  if n = 1 then 1
  else if i = 0 then 0.4
  else if i = n - 1 then 0.4
  else 0.2 / ((max 1 (n - 2) : ℕ) : ℚ)

/-- The position-based weight list (the `.map((tp, index) => ...)` over the
journey, one weight per index). -/
def positionWeights (j : List Touchpoint) : List ℚ :=
  (List.range j.length).map (positionWeight j.length)

/-- Weight vector induced by the first-click model: the code returns
`customerJourney[0]` as the credited touchpoint, i.e. credit 1.0 at index 0
and 0 elsewhere. -/
def firstClickWeights (j : List Touchpoint) : List ℚ :=
  (List.range j.length).map (fun i => if i = 0 then 1 else 0)

/-- Weight vector induced by the last-click model: the code returns
`customerJourney[customerJourney.length - 1]`, i.e. credit 1.0 at the last
index and 0 elsewhere. -/
def lastClickWeights (j : List Touchpoint) : List ℚ :=
  (List.range j.length).map (fun i => if i = j.length - 1 then 1 else 0)

/-- Result record of `calculateAttributionModels`: the credited first/last
touchpoints (null on an empty journey) and the three weighted journeys, each
entry pairing a touchpoint with its `attribution_weight`. -/
structure AttributionResult where
  first_click : Option Touchpoint
  last_click : Option Touchpoint
  linear : List (Touchpoint × ℚ)
  time_decay : List (Touchpoint × ℝ)
  position_based : List (Touchpoint × ℚ)

/-- `calculateAttributionModels(customerJourney)`: on an empty journey all
models yield null/empty; otherwise first/last click pick the boundary
touchpoints and the three list models pair every touchpoint with its weight,
in journey order. `now` is the `Date.now()` value read by the time-decay
branch. -/
noncomputable def calculateAttributionModels (now : ℤ) (j : List Touchpoint) : AttributionResult :=
  if j = [] then
    { first_click := none, last_click := none
      linear := [], time_decay := [], position_based := [] }
  else
    { first_click := j.head?
      last_click := j.getLast?
      linear := j.zip (linearWeights j)
      time_decay := j.zip (timeDecayWeights now j)
      position_based := j.zip (positionWeights j) }

/-- A session row as created by the tracking route's `prisma.session.upsert`
(`sessions` table of the migration): identity, lifecycle timestamps, and the
captured first-touch context (all nullable columns are `Option`). -/
structure Session where
  sessionId : String
  visitorId : String
  createdAt : ℤ
  updatedAt : ℤ
  expiresAt : ℤ
  userAgent : Option String
  ipAddress : Option String
  deviceType : Option String
  browser : Option String
  os : Option String
  country : Option String
  timezone : Option String
  language : Option String
  utmSource : Option String
  utmMedium : Option String
  utmCampaign : Option String
  utmTerm : Option String
  utmContent : Option String
  referrer : Option String
  landingPage : Option String
  fbclid : Option String
  gclid : Option String
  ttclid : Option String
deriving DecidableEq, Repr

/-- The `session_start` payload destructured by `handleSessionStart`. -/
structure SessionStartData where
  sessionId : String
  visitorId : String
  userAgent : Option String
  ipAddress : Option String
  deviceType : Option String
  browser : Option String
  os : Option String
  country : Option String
  timezone : Option String
  language : Option String
  utmSource : Option String
  utmMedium : Option String
  utmCampaign : Option String
  utmTerm : Option String
  utmContent : Option String
  referrer : Option String
  landingPage : Option String
  fbclid : Option String
  gclid : Option String
  ttclid : Option String
deriving DecidableEq, Repr

/-- `30 * 60 * 1000`: the 30-minute inactivity window added to `Date.now()`
for `expiresAt`. -/
def inactivityWindow : ℤ := 30 * 60 * 1000

/-- The session row built by the `create` branch of the upsert: all context
fields from the payload, `createdAt`/`updatedAt` set to the current time and
`expiresAt` to the current time plus the inactivity window. -/
def createSession (now : ℤ) (d : SessionStartData) : Session :=
  { sessionId := d.sessionId, visitorId := d.visitorId
    createdAt := now, updatedAt := now, expiresAt := now + inactivityWindow
    userAgent := d.userAgent, ipAddress := d.ipAddress
    deviceType := d.deviceType, browser := d.browser, os := d.os
    country := d.country, timezone := d.timezone, language := d.language
    utmSource := d.utmSource, utmMedium := d.utmMedium
    utmCampaign := d.utmCampaign, utmTerm := d.utmTerm
    utmContent := d.utmContent, referrer := d.referrer
    landingPage := d.landingPage, fbclid := d.fbclid, gclid := d.gclid
    ttclid := d.ttclid }

/-- `handleSessionStart`: `prisma.session.upsert({ where: { sessionId }, update:
{ updatedAt: new Date(), expiresAt: new Date(Date.now() + 30 * 60 * 1000) },
create: { ...full payload... } })`.  The store is the `sessions` table
(`sessionId` unique); `now` is `Date.now()` at processing time, the only
clock the handler consults (the payload carries no timestamp field). -/
def handleSessionStart (now : ℤ) (d : SessionStartData) (store : List Session) :
    List Session :=
  if store.any (fun s => s.sessionId == d.sessionId) then
    store.map (fun s =>
      if s.sessionId == d.sessionId then
        { s with updatedAt := now, expiresAt := now + inactivityWindow }
      else s)
  else
    store ++ [createSession now d]

/-- Lookup of a session row by its unique `sessionId`. -/
def findSession (store : List Session) (sid : String) : Option Session :=
  store.find? (fun s => s.sessionId == sid)

/-- A conversion row, restricted to the columns the recording claims are
about: the unique `conversionId`, the (non-unique) `orderId`, and the mutable
order fields `totalValue` and `itemCount`. -/
structure ConversionRec where
  conversionId : String
  orderId : String
  totalValue : ℚ
  itemCount : ℕ
deriving DecidableEq, Repr

/-- `prisma.conversion.create`: the migration puts a unique index on
`conversionId` only, so the insert fails exactly when the generated
`conversionId` already exists, and otherwise appends the row. -/
def conversionCreate (store : List ConversionRec) (r : ConversionRec) :
    Except String (List ConversionRec) :=
  if store.any (fun c => c.conversionId == r.conversionId) then
    Except.error "Unique constraint failed on conversionId"
  else
    Except.ok (store ++ [r])

/-- The conversion id generated by `processConversion`:
`conv_${orderData.order_id}_${Date.now()}`. -/
def mkConversionId (orderId : String) (now : ℤ) : String :=
  "conv_" ++ orderId ++ "_" ++ toString now

/-- Store effect of `processConversion(orderData, ...)` in the Shopify
conversion route: it always calls `prisma.conversion.create` with a freshly
generated `conversionId` (there is no lookup of an existing record for the
order). -/
def processConversion (now : ℤ) (orderId : String) (totalValue : ℚ)
    (itemCount : ℕ) (store : List ConversionRec) :
    Except String (List ConversionRec) :=
  conversionCreate store
    { conversionId := mkConversionId orderId now, orderId := orderId
      totalValue := totalValue, itemCount := itemCount }

/-- `handleOrderUpdate` of the Shopify webhook route:
`prisma.conversion.updateMany({ where: { orderId }, data: { totalValue,
itemCount, updatedAt } })` — updates every row with that `orderId`, creates
nothing. -/
def handleOrderUpdate (orderId : String) (totalValue : ℚ) (itemCount : ℕ)
    (store : List ConversionRec) : List ConversionRec :=
  store.map (fun c =>
    if c.orderId == orderId then
      { c with totalValue := totalValue, itemCount := itemCount }
    else c)

/-- Number of conversion rows recorded for a given order identity. -/
def countOrder (store : List ConversionRec) (orderId : String) : ℕ :=
  (store.filter (fun c => c.orderId == orderId)).length

/-- An `events` table row as consumed by the funnel query (session key, event
name, and the `createdAt` column the date filter runs on). -/
structure Event where
  sessionId : String
  eventName : String
  createdAt : ℤ
deriving DecidableEq, Repr

/-- One output entry of `getFunnelData`. -/
structure FunnelEntry where
  step : String
  visitors : ℕ
  conversionRate : ℚ
  dropOff : ℤ
deriving DecidableEq, Repr

/-- `prisma.event.groupBy({ by: ['sessionId'], where: { eventName, createdAt:
{ gte: startDate, lte: endDate } } }).length`: the number of distinct
sessions with at least one matching event in the window. -/
def distinctSessions (events : List Event) (pattern : String)
    (startDate endDate : ℤ) : ℕ :=
  (((events.filter (fun e =>
      e.eventName == pattern && decide (startDate ≤ e.createdAt)
        && decide (e.createdAt ≤ endDate))).map
    (fun e => e.sessionId)).dedup).length

/-- `funnelData[i].visitors` (0 past the end, never read there by the code). -/
def funnelVisitorsAt (fd : List FunnelEntry) (i : ℕ) : ℕ :=
  ((fd.get? i).map (fun e => e.visitors)).getD 0

/-- The second loop of `getFunnelData`: entry 0 gets `conversionRate = 100`;
entry `i > 0` gets `visitors[i] / funnelData[0].visitors * 100` (0 when step
0 has no visitors) and `dropOff = funnelData[i-1].visitors -
funnelData[i].visitors`; the `dropOff` of entry 0 keeps its initial value. -/
def applyFunnelRates (fd : List FunnelEntry) : List FunnelEntry :=
  ((List.range fd.length).zip fd).map (fun p =>
    { p.2 with
      conversionRate :=
        if p.1 = 0 then 100
        else if 0 < funnelVisitorsAt fd 0 then
          ((p.2.visitors : ℚ) / ((funnelVisitorsAt fd 0 : ℕ) : ℚ)) * 100
        else 0
      dropOff :=
        if 0 < p.1 then
          ((funnelVisitorsAt fd (p.1 - 1) : ℕ) : ℤ) - ((p.2.visitors : ℕ) : ℤ)
        else p.2.dropOff })

/-- `getFunnelData` over an explicit step list: phase 1 builds one entry per
step with the distinct-session count and zero-initialized rate/drop-off,
phase 2 fills rates and drop-offs. -/
def computeFunnel (events : List Event) (steps : List (String × String))
    (startDate endDate : ℤ) : List FunnelEntry :=
  applyFunnelRates (steps.map (fun st =>
    { step := st.1, visitors := distinctSessions events st.2 startDate endDate
      conversionRate := 0, dropOff := 0 }))

/-- The step list hard-coded in `getFunnelData`. -/
def funnelSteps : List (String × String) :=
  [("Landing Page Views", "page_view"),
   ("Product Views", "product_view"),
   ("Add to Cart", "add_to_cart"),
   ("Checkout Started", "checkout_started"),
   ("Purchase", "purchase_completed")]

/-- `getFunnelData(startDate, endDate)` as in the source: `computeFunnel` on
the hard-coded steps. -/
def getFunnelData (events : List Event) (startDate endDate : ℤ) :
    List FunnelEntry :=
  computeFunnel events funnelSteps startDate endDate

/-! ## Helper lemmas -/

lemma sum_range_map {M : Type} [AddCommMonoid M] (f : ℕ → M) :
    ∀ n, ((List.range n).map f).sum = ∑ i ∈ Finset.range n, f i
  | 0 => by simp
  | n + 1 => by
    rw [List.range_succ, List.map_append, List.sum_append,
      Finset.sum_range_succ, sum_range_map f n]
    simp

lemma sum_range_indicator (n i : ℕ) (h : i < n) :
    ((List.range n).map (fun k => if k = i then (1 : ℚ) else 0)).sum = 1 := by
  rw [sum_range_map]
  rw [Finset.sum_ite_eq' (Finset.range n) i (fun _ => (1 : ℚ))]
  simp [Finset.mem_range.mpr h]

lemma linearWeights_sum (j : List Touchpoint) (h : j ≠ []) :
    (linearWeights j).sum = 1 := by
  have hn : (j.length : ℚ) ≠ 0 := Nat.cast_ne_zero.mpr (List.length_pos.mpr h).ne'
  unfold linearWeights
  rw [List.map_const']
  rw [List.sum_replicate, nsmul_eq_mul]
  field_simp

lemma timeDecayRawWeight_pos (now : ℤ) (tp : Touchpoint) :
    0 < timeDecayRawWeight now tp :=
  Real.rpow_pos_of_pos (by norm_num) _

lemma totalTimeDecayWeight_pos (now : ℤ) (j : List Touchpoint) (h : j ≠ []) :
    0 < totalTimeDecayWeight now j := by
  apply List.sum_pos
  · intro x hx
    obtain ⟨tp, _, rfl⟩ := List.mem_map.mp hx
    exact timeDecayRawWeight_pos now tp
  · simpa using h

lemma timeDecayWeights_sum (now : ℤ) (j : List Touchpoint) (h : j ≠ []) :
    (timeDecayWeights now j).sum = 1 := by
  have hT := totalTimeDecayWeight_pos now j h
  unfold timeDecayWeights
  have hrw : (j.map fun tp => timeDecayRawWeight now tp / totalTimeDecayWeight now j).sum
      = (j.map (timeDecayRawWeight now)).sum * (totalTimeDecayWeight now j)⁻¹ := by
    simp only [div_eq_mul_inv]
    simpa using List.sum_map_mul_right j (timeDecayRawWeight now)
      (totalTimeDecayWeight now j)⁻¹
  rw [hrw]
  rw [show (j.map (timeDecayRawWeight now)).sum = totalTimeDecayWeight now j from rfl]
  exact mul_inv_cancel₀ (ne_of_gt hT)

lemma timeDecayRawWeight_factor (now : ℤ) (tp : Touchpoint) :
    timeDecayRawWeight now tp
      = timeDecayRawWeight 0 tp * (2 : ℝ) ^ (-(now : ℝ) / ((halfLife : ℤ) : ℝ)) := by
  unfold timeDecayRawWeight
  rw [← Real.rpow_add (by norm_num : (0 : ℝ) < 2)]
  congr 1
  push_cast
  ring

lemma totalTimeDecayWeight_factor (now : ℤ) (j : List Touchpoint) :
    totalTimeDecayWeight now j
      = totalTimeDecayWeight 0 j * (2 : ℝ) ^ (-(now : ℝ) / ((halfLife : ℤ) : ℝ)) := by
  unfold totalTimeDecayWeight
  rw [List.map_congr_left (fun tp _ => timeDecayRawWeight_factor now tp)]
  simpa using List.sum_map_mul_right j (timeDecayRawWeight 0)
    ((2 : ℝ) ^ (-(now : ℝ) / ((halfLife : ℤ) : ℝ)))

lemma timeDecayWeights_invariant (now : ℤ) (j : List Touchpoint) :
    timeDecayWeights now j = timeDecayWeights 0 j := by
  unfold timeDecayWeights
  refine List.map_congr_left (fun tp _ => ?_)
  rw [timeDecayRawWeight_factor now tp, totalTimeDecayWeight_factor now j]
  exact mul_div_mul_right _ _
    (ne_of_gt (Real.rpow_pos_of_pos (by norm_num) _))

lemma positionWeights_length (j : List Touchpoint) :
    (positionWeights j).length = j.length := by
  simp [positionWeights]

lemma linearWeights_length (j : List Touchpoint) :
    (linearWeights j).length = j.length := by
  simp [linearWeights]

lemma timeDecayWeights_length (now : ℤ) (j : List Touchpoint) :
    (timeDecayWeights now j).length = j.length := by
  simp [timeDecayWeights]

lemma positionWeights_sum_of_three_le (j : List Touchpoint) (hn : 3 ≤ j.length) :
    (positionWeights j).sum = 1 := by
  set n := j.length with hn_def
  unfold positionWeights
  rw [← hn_def, sum_range_map]
  have h0mem : 0 ∈ Finset.range n := Finset.mem_range.mpr (by omega)
  have hlmem : n - 1 ∈ Finset.range n := Finset.mem_range.mpr (by omega)
  have hne : (0 : ℕ) ≠ n - 1 := by omega
  have hsub : ({0, n - 1} : Finset ℕ) ⊆ Finset.range n := by
    intro x hx
    rcases Finset.mem_insert.mp hx with h | h
    · rw [h]; exact h0mem
    · rw [Finset.mem_singleton.mp h]; exact hlmem
  rw [← Finset.sum_sdiff hsub]
  have hn1 : n ≠ 1 := by omega
  have hl0 : n - 1 ≠ 0 := by omega
  have hpair : ∑ i ∈ ({0, n - 1} : Finset ℕ), positionWeight n i = 0.8 := by
    rw [Finset.sum_pair hne]
    unfold positionWeight
    rw [if_neg hn1, if_pos rfl, if_neg hn1, if_neg hl0, if_pos rfl]
    norm_num
  have hmid : ∑ i ∈ Finset.range n \ {0, n - 1}, positionWeight n i = 0.2 := by
    have hc : ∀ i ∈ Finset.range n \ {0, n - 1},
        positionWeight n i = 0.2 / (((n - 2 : ℕ) : ℚ)) := by
      intro i hi
      obtain ⟨_, hinot⟩ := Finset.mem_sdiff.mp hi
      have hi0 : i ≠ 0 := by
        intro h; exact hinot (by simp [h])
      have hil : i ≠ n - 1 := by
        intro h; exact hinot (by simp [h])
      unfold positionWeight
      rw [if_neg hn1, if_neg hi0, if_neg hil]
      rw [Nat.max_eq_right (by omega : 1 ≤ n - 2)]
    rw [Finset.sum_congr rfl hc, Finset.sum_const]
    have hcard : (Finset.range n \ {0, n - 1}).card = n - 2 := by
      rw [Finset.card_sdiff hsub, Finset.card_range]
      rw [show ({0, n - 1} : Finset ℕ).card = 2 from by
        rw [Finset.card_insert_of_not_mem (by simp [hne]), Finset.card_singleton]]
    rw [hcard, nsmul_eq_mul]
    have hnz : ((n - 2 : ℕ) : ℚ) ≠ 0 := by
      have : 0 < n - 2 := by omega
      exact_mod_cast ne_of_gt (by exact_mod_cast this : (0 : ℚ) < ((n - 2 : ℕ) : ℚ))
    field_simp
  rw [hpair, hmid]
  norm_num

lemma positionWeights_sum_of_length_one (j : List Touchpoint) (hn : j.length = 1) :
    (positionWeights j).sum = 1 := by
  unfold positionWeights
  rw [hn]
  norm_num [positionWeight, List.range_succ]

lemma positionWeights_sum_of_length_two (j : List Touchpoint) (hn : j.length = 2) :
    (positionWeights j).sum = 0.8 := by
  unfold positionWeights
  rw [hn]
  norm_num [positionWeight, List.range_succ]

lemma find?_map_update (p : Session → Bool) (f : Session → Session)
    (hp : ∀ s, p (f s) = p s) :
    ∀ (store : List Session) (s0 : Session), store.find? p = some s0 →
      (store.map (fun s => if p s then f s else s)).find? p = some (f s0)
  | [], s0, h => by simp at h
  | a :: l, s0, h => by
    by_cases ha : p a
    · rw [List.find?_cons_of_pos l ha] at h
      simp only [List.map_cons, if_pos ha]
      rw [List.find?_cons_of_pos _ (by rw [hp]; exact ha)]
      rw [Option.some_inj.mp h]
    · rw [List.find?_cons_of_neg l ha] at h
      simp only [List.map_cons, if_neg ha]
      rw [List.find?_cons_of_neg _ ha]
      exact find?_map_update p f hp l s0 h

lemma findSession_handleSessionStart_of_found (now : ℤ) (d : SessionStartData)
    (store : List Session) (s0 : Session)
    (h : findSession store d.sessionId = some s0) :
    findSession (handleSessionStart now d store) d.sessionId
      = some { s0 with updatedAt := now, expiresAt := now + inactivityWindow } := by
  unfold findSession at h ⊢
  have hany : store.any (fun s => s.sessionId == d.sessionId) = true := by
    rw [List.any_eq_true]
    exact ⟨s0, List.mem_of_find?_eq_some h,
      @List.find?_some Session (fun s => s.sessionId == d.sessionId) s0 store h⟩
  unfold handleSessionStart
  rw [if_pos hany]
  exact find?_map_update (fun s => s.sessionId == d.sessionId)
    (fun s => { s with updatedAt := now, expiresAt := now + inactivityWindow })
    (fun _ => rfl) store s0 h

lemma findSession_handleSessionStart_of_absent (now : ℤ) (d : SessionStartData)
    (store : List Session)
    (h : findSession store d.sessionId = none) :
    findSession (handleSessionStart now d store) d.sessionId
      = some (createSession now d) := by
  have hany : store.any (fun s => s.sessionId == d.sessionId) = false := by
    rw [List.any_eq_false]
    intro s hs
    have := List.find?_eq_none.mp h s hs
    simpa using this
  unfold handleSessionStart findSession
  rw [if_neg (by simp [hany])]
  rw [List.find?_append]
  unfold findSession at h
  rw [h]
  simp [createSession]

lemma findSession_handleSessionStart (now : ℤ) (d : SessionStartData)
    (store : List Session) :
    ∃ s, findSession (handleSessionStart now d store) d.sessionId = some s
      ∧ s.updatedAt = now ∧ s.expiresAt = now + inactivityWindow := by
  cases hfind : findSession store d.sessionId with
  | none =>
    exact ⟨createSession now d,
      findSession_handleSessionStart_of_absent now d store hfind, rfl, rfl⟩
  | some s0 =>
    exact ⟨{ s0 with updatedAt := now, expiresAt := now + inactivityWindow },
      findSession_handleSessionStart_of_found now d store s0 hfind, rfl, rfl⟩

lemma countOrder_handleOrderUpdate (o o2 : String) (v : ℚ) (c : ℕ)
    (store : List ConversionRec) :
    countOrder (handleOrderUpdate o2 v c store) o = countOrder store o := by
  unfold countOrder handleOrderUpdate
  rw [List.filter_map]
  rw [List.length_map]
  congr 1
  apply List.filter_congr
  intro x _
  by_cases hx : x.orderId == o2 <;> simp [hx, Function.comp]

lemma applyFunnelRates_length (fd : List FunnelEntry) :
    (applyFunnelRates fd).length = fd.length := by
  simp [applyFunnelRates]

lemma applyFunnelRates_getElem? (fd : List FunnelEntry) (i : ℕ) (e : FunnelEntry)
    (he : fd[i]? = some e) :
    (applyFunnelRates fd)[i]?
      = some { e with
          conversionRate :=
            if i = 0 then 100
            else if 0 < funnelVisitorsAt fd 0 then
              ((e.visitors : ℚ) / ((funnelVisitorsAt fd 0 : ℕ) : ℚ)) * 100
            else 0
          dropOff :=
            if 0 < i then
              ((funnelVisitorsAt fd (i - 1) : ℕ) : ℤ) - ((e.visitors : ℕ) : ℤ)
            else e.dropOff } := by
  obtain ⟨hi, -⟩ := List.getElem?_eq_some_iff.mp he
  unfold applyFunnelRates
  rw [List.getElem?_map]
  rw [(List.getElem?_zip_eq_some (z := (i, e))).mpr
    ⟨List.getElem?_range hi, he⟩]
  rfl

lemma applyFunnelRates_map_visitors (fd : List FunnelEntry) :
    (applyFunnelRates fd).map (fun e => e.visitors)
      = fd.map (fun e => e.visitors) := by
  unfold applyFunnelRates
  rw [List.map_map]
  rw [show ((fun e => e.visitors) ∘ fun p : ℕ × FunnelEntry =>
      ({ p.2 with
          conversionRate :=
            if p.1 = 0 then 100
            else if 0 < funnelVisitorsAt fd 0 then
              ((p.2.visitors : ℚ) / ((funnelVisitorsAt fd 0 : ℕ) : ℚ)) * 100
            else 0
          dropOff :=
            if 0 < p.1 then
              ((funnelVisitorsAt fd (p.1 - 1) : ℕ) : ℤ) - ((p.2.visitors : ℕ) : ℤ)
            else p.2.dropOff } : FunnelEntry))
      = (fun e : FunnelEntry => e.visitors) ∘ Prod.snd from rfl]
  rw [← List.map_map]
  rw [List.map_snd_zip _ _ (by simp)]

lemma funnelVisitorsAt_applyFunnelRates (fd : List FunnelEntry) (i : ℕ) :
    funnelVisitorsAt (applyFunnelRates fd) i = funnelVisitorsAt fd i := by
  unfold funnelVisitorsAt
  simp only [List.get?_eq_getElem?]
  cases hx : fd[i]? with
  | none =>
    have hlen := List.getElem?_eq_none_iff.mp hx
    rw [List.getElem?_eq_none (by rw [applyFunnelRates_length]; exact hlen)]
  | some e =>
    rw [applyFunnelRates_getElem? fd i e hx]
    rfl

/-! ## Concrete inputs used by witnesses and counterexamples -/

/-- A concrete touchpoint at the conversion instant 0. -/
def tpA : Touchpoint := ⟨"sess-1", 0, some "google", some "cpc", some "brand"⟩

/-- A concrete touchpoint one day after epoch. -/
def tpB : Touchpoint := ⟨"sess-2", 86400000, some "meta", some "paid-social", none⟩

/-- A concrete touchpoint two days after epoch. -/
def tpC : Touchpoint := ⟨"sess-1", 172800000, none, none, none⟩

/-! ## Claim theorems -/

/-- C1, counterexample: on a two-touchpoint journey the position-based weight
vector sums to 0.8, not 1.0, and 0.2 is far outside the 1e-9 tolerance, so
the claim that every model's weights sum to 1.0 on every non-empty journey is
false on the code. -/
theorem C1_counterexample_positionBased_pair :
    ¬ (|(positionWeights [tpA, tpB]).sum - 1| ≤ (1e-9 : ℚ)) := by
  norm_num [positionWeights, positionWeight, List.range_succ]
  rw [abs_of_nonneg (by norm_num : (0 : ℚ) ≤ 1 / 5)]
  norm_num

/-- C1 (amended): for every non-empty journey the first-click, last-click,
linear and time-decay weight vectors sum to 1; the position-based vector sums
to 1 exactly when the journey length is not 2, and to 0.8 when it is 2. -/
theorem C1_model_weight_sums (now : ℤ) (j : List Touchpoint) (h : j ≠ []) :
    (firstClickWeights j).sum = 1 ∧ (lastClickWeights j).sum = 1
      ∧ (linearWeights j).sum = 1 ∧ (timeDecayWeights now j).sum = 1
      ∧ (j.length ≠ 2 → (positionWeights j).sum = 1)
      ∧ (j.length = 2 → (positionWeights j).sum = 0.8) := by
  have hpos : 0 < j.length := List.length_pos.mpr h
  refine ⟨?_, ?_, linearWeights_sum j h, timeDecayWeights_sum now j h, ?_,
    positionWeights_sum_of_length_two j⟩
  · unfold firstClickWeights
    exact sum_range_indicator j.length 0 hpos
  · unfold lastClickWeights
    exact sum_range_indicator j.length (j.length - 1) (by omega)
  · intro h2
    rcases Nat.lt_or_ge j.length 3 with h3 | h3
    · exact positionWeights_sum_of_length_one j (by omega)
    · exact positionWeights_sum_of_three_le j h3

/-- Witness for C1 (amended) on the singleton journey `[tpA]`. -/
theorem C1_model_weight_sums_witness :
    ([tpA] : List Touchpoint) ≠ []
      ∧ ((firstClickWeights [tpA]).sum = 1 ∧ (lastClickWeights [tpA]).sum = 1
        ∧ (linearWeights [tpA]).sum = 1 ∧ (timeDecayWeights 0 [tpA]).sum = 1
        ∧ (([tpA] : List Touchpoint).length ≠ 2 → (positionWeights [tpA]).sum = 1)
        ∧ (([tpA] : List Touchpoint).length = 2 → (positionWeights [tpA]).sum = 0.8)) :=
  ⟨List.cons_ne_nil tpA [], C1_model_weight_sums 0 [tpA] (List.cons_ne_nil tpA [])⟩

/-- C2: the position-based model gives weight 1.0 to the sole touchpoint of a
singleton journey; on a journey of length `N ≥ 2` the weight at index `i` is
0.4 for the first and last index and `0.2 / max(1, N-2)` in the middle; for
`N = 2` the literal weights are `[0.4, 0.4]`, summing to 0.8 with no
renormalization. -/
theorem C2_positionBased_spec (j : List Touchpoint) :
    (j.length = 1 → positionWeights j = [1])
      ∧ (2 ≤ j.length → ∀ i : ℕ, i < j.length →
          (positionWeights j)[i]? = some (if i = 0 ∨ i = j.length - 1 then 0.4
            else 0.2 / ((max 1 (j.length - 2) : ℕ) : ℚ)))
      ∧ (j.length = 2 → positionWeights j = [0.4, 0.4]
          ∧ (positionWeights j).sum = 0.8) := by
  refine ⟨?_, ?_, ?_⟩
  · intro h1
    unfold positionWeights
    rw [h1]
    norm_num [positionWeight, List.range_succ]
  · intro h2 i hi
    unfold positionWeights
    rw [List.getElem?_map, List.getElem?_range hi]
    simp only [Option.map_some']
    congr 1
    unfold positionWeight
    rw [if_neg (by omega : ¬ j.length = 1)]
    by_cases h0 : i = 0
    · rw [if_pos h0, if_pos (Or.inl h0)]
    · rw [if_neg h0]
      by_cases hl : i = j.length - 1
      · rw [if_pos hl, if_pos (Or.inr hl)]
      · rw [if_neg hl, if_neg (by tauto)]
  · intro h2
    refine ⟨?_, positionWeights_sum_of_length_two j h2⟩
    unfold positionWeights
    rw [h2]
    norm_num [positionWeight, List.range_succ]

/-- Witness for C2 at the three-touchpoint journey, middle index 1. -/
theorem C2_positionBased_spec_witness :
    2 ≤ ([tpA, tpB, tpC] : List Touchpoint).length
      ∧ (1 : ℕ) < ([tpA, tpB, tpC] : List Touchpoint).length
      ∧ (positionWeights [tpA, tpB, tpC])[1]?
        = some (if 1 = 0 ∨ 1 = ([tpA, tpB, tpC] : List Touchpoint).length - 1
            then 0.4
            else 0.2 / ((max 1 (([tpA, tpB, tpC] : List Touchpoint).length - 2) : ℕ) : ℚ)) :=
  ⟨by norm_num, by norm_num,
    (C2_positionBased_spec [tpA, tpB, tpC]).2.1 (by norm_num) 1 (by norm_num)⟩

/-- C3: the raw time-decay weight is `2 ^ (-Δt / halfLife)` with the 7-day
half-life, so a touchpoint whose timestamp equals the conversion instant has
raw weight exactly 1, a touchpoint exactly one half-life earlier has raw
weight exactly half of that, and the normalized weights of a non-empty
journey sum to 1. -/
theorem C3_timeDecay_halfLife (now : ℤ) (tp0 tp7 : Touchpoint)
    (j : List Touchpoint) :
    (tp0.timestamp = now → timeDecayRawWeight now tp0 = 1)
      ∧ (tp0.timestamp = now → tp7.timestamp = now - halfLife →
          timeDecayRawWeight now tp7 = timeDecayRawWeight now tp0 / 2)
      ∧ (j ≠ [] → (timeDecayWeights now j).sum = 1) := by
  refine ⟨?_, ?_, timeDecayWeights_sum now j⟩
  · intro h0
    unfold timeDecayRawWeight
    rw [h0]
    simp
  · intro h0 h7
    have h1 : timeDecayRawWeight now tp0 = 1 := by
      unfold timeDecayRawWeight
      rw [h0]
      simp
    rw [h1]
    unfold timeDecayRawWeight
    rw [h7, sub_sub_cancel]
    have hH : ((halfLife : ℤ) : ℝ) ≠ 0 := by norm_num [halfLife]
    rw [neg_div, div_self hH]
    rw [Real.rpow_neg_one]
    norm_num

/-- Witness for C3: `tpA` sits at the conversion instant 0 and alone forms a
non-empty journey. -/
theorem C3_timeDecay_halfLife_witness :
    (tpA.timestamp = 0 ∧ ([tpA] : List Touchpoint) ≠ [])
      ∧ timeDecayRawWeight 0 tpA = 1 ∧ (timeDecayWeights 0 [tpA]).sum = 1 :=
  ⟨⟨rfl, List.cons_ne_nil tpA []⟩,
    (C3_timeDecay_halfLife 0 tpA tpA [tpA]).1 rfl,
    (C3_timeDecay_halfLife 0 tpA tpA [tpA]).2.2 (List.cons_ne_nil tpA [])⟩

/-- C6: the attribution result is a deterministic function of the journey
value alone — the `Date.now()` reading cancels in the time-decay
normalization, so two runs at different clock values produce identical
results for all five models. -/
theorem C6_attribution_deterministic (now1 now2 : ℤ) (j : List Touchpoint) :
    calculateAttributionModels now1 j = calculateAttributionModels now2 j := by
  unfold calculateAttributionModels
  by_cases hj : j = []
  · rw [if_pos hj, if_pos hj]
  · rw [if_neg hj, if_neg hj]
    rw [timeDecayWeights_invariant now1 j, timeDecayWeights_invariant now2 j]

/-- C8: on the empty journey the calculator returns null first/last click and
empty weight lists, and on every non-empty journey the two divisors of the
computation (the total raw time-decay weight and the journey length) are
nonzero, so no division is degenerate and the computation never fails. -/
theorem C8_empty_journey_total (now : ℤ) (j : List Touchpoint) :
    calculateAttributionModels now []
        = { first_click := none, last_click := none
            linear := [], time_decay := [], position_based := [] }
      ∧ (j ≠ [] → 0 < totalTimeDecayWeight now j ∧ ((j.length : ℚ) ≠ 0)) := by
  refine ⟨by unfold calculateAttributionModels; rw [if_pos rfl], fun h => ?_⟩
  exact ⟨totalTimeDecayWeight_pos now j h,
    Nat.cast_ne_zero.mpr (List.length_pos.mpr h).ne'⟩

/-- Witness for C8 on the singleton journey `[tpA]`. -/
theorem C8_empty_journey_total_witness :
    ([tpA] : List Touchpoint) ≠ []
      ∧ (0 < totalTimeDecayWeight 0 [tpA]
        ∧ ((([tpA] : List Touchpoint).length : ℚ) ≠ 0)) :=
  ⟨List.cons_ne_nil tpA [], (C8_empty_journey_total 0 [tpA]).2 (List.cons_ne_nil tpA [])⟩

/-- C10: on a non-empty journey each list model returns exactly one entry per
touchpoint, in journey order, with entry `i` carrying touchpoint `i`
(`map Prod.fst` recovers the journey); first-click and last-click are exactly
the first and the last journey element. -/
theorem C10_attribution_output_shape (now : ℤ) (j : List Touchpoint)
    (h : j ≠ []) :
    (calculateAttributionModels now j).linear.map Prod.fst = j
      ∧ (calculateAttributionModels now j).time_decay.map Prod.fst = j
      ∧ (calculateAttributionModels now j).position_based.map Prod.fst = j
      ∧ (calculateAttributionModels now j).linear.length = j.length
      ∧ (calculateAttributionModels now j).time_decay.length = j.length
      ∧ (calculateAttributionModels now j).position_based.length = j.length
      ∧ (calculateAttributionModels now j).first_click = some (j.head h)
      ∧ (calculateAttributionModels now j).last_click = some (j.getLast h) := by
  unfold calculateAttributionModels
  rw [if_neg h]
  refine ⟨?_, ?_, ?_, ?_, ?_, ?_, ?_, ?_⟩
  · exact List.map_fst_zip j _ (le_of_eq (linearWeights_length j).symm)
  · exact List.map_fst_zip j _ (le_of_eq (timeDecayWeights_length now j).symm)
  · exact List.map_fst_zip j _ (le_of_eq (positionWeights_length j).symm)
  · simp [List.length_zip, linearWeights_length]
  · simp [List.length_zip, timeDecayWeights_length]
  · simp [List.length_zip, positionWeights_length]
  · exact List.head?_eq_head h
  · exact List.getLast?_eq_getLast_of_ne_nil h

/-- Witness for C10 on the journey `[tpA, tpB]`. -/
theorem C10_attribution_output_shape_witness :
    ([tpA, tpB] : List Touchpoint) ≠ []
      ∧ (calculateAttributionModels 0 [tpA, tpB]).linear.map Prod.fst = [tpA, tpB]
      ∧ (calculateAttributionModels 0 [tpA, tpB]).first_click
        = some (([tpA, tpB] : List Touchpoint).head (List.cons_ne_nil tpA [tpB])) :=
  ⟨List.cons_ne_nil tpA [tpB],
    (C10_attribution_output_shape 0 [tpA, tpB] (List.cons_ne_nil tpA [tpB])).1,
    (C10_attribution_output_shape 0 [tpA, tpB] (List.cons_ne_nil tpA [tpB])).2.2.2.2.2.2.1⟩

/-- A `session_start` payload with no context, for the expiry claims. -/
def sdA : SessionStartData :=
  ⟨"sess-1", "vis-1", none, none, none, none, none, none, none, none,
   none, none, none, none, none, none, none, none, none, none⟩

/-- An existing session row whose first-touch context is entirely empty. -/
def sessEmpty : Session :=
  ⟨"sess-1", "vis-1", 0, 0, 1800000, none, none, none, none, none, none,
   none, none, none, none, none, none, none, none, none, none, none, none⟩

/-- A `session_start` payload that newly observes `utmSource = "google"`. -/
def sdGoogle : SessionStartData :=
  ⟨"sess-1", "vis-1", none, none, none, none, none, none, none, none,
   some "google", none, none, none, none, none, none, none, none, none⟩

/-- Events of two sessions for the funnel witness: sessions `a` and `b` view
the landing page, only `a` views a product. -/
def demoEvents : List Event :=
  [⟨"a", "page_view", 5⟩, ⟨"b", "page_view", 5⟩, ⟨"a", "product_view", 6⟩]

/-- Two funnel steps for the witness. -/
def demoSteps : List (String × String) :=
  [("Landing Page Views", "page_view"), ("Product Views", "product_view")]

/-- C4, counterexample: two recording calls for the same order `"1001"` (at
clock values 0 and 1) both succeed and leave TWO conversion rows for that
order, not one — `processConversion` always inserts a fresh row with a fresh
`conversionId`, so recording is not idempotent per order identity. -/
theorem C4_counterexample_duplicate :
    (processConversion 0 "1001" 50 1 []).bind (processConversion 1 "1001" 60 2)
        = Except.ok [⟨"conv_1001_0", "1001", 50, 1⟩, ⟨"conv_1001_1", "1001", 60, 2⟩]
      ∧ countOrder [⟨"conv_1001_0", "1001", 50, 1⟩,
          ⟨"conv_1001_1", "1001", 60, 2⟩] "1001" = 2
      ∧ (2 : ℕ) ≠ 1 :=
  ⟨rfl, rfl, by norm_num⟩

/-- C4 (amended): `processConversion` is an unconditional insert — a second
call with the same `orderId` (and a distinct generated `conversionId`) adds a
second conversion row with its own attribution snapshot, growing the count
for that order by two overall; only the separate `orders/updated` handler
updates the mutable fields (`totalValue`, `itemCount`) of all rows of that
order, creating no row. -/
theorem C4_conversion_recording (store : List ConversionRec) (o : String)
    (now1 now2 : ℤ) (v1 v2 : ℚ) (c1 c2 : ℕ)
    (h1 : store.any (fun c => c.conversionId == mkConversionId o now1) = false)
    (h2 : store.any (fun c => c.conversionId == mkConversionId o now2) = false)
    (h3 : mkConversionId o now1 ≠ mkConversionId o now2) :
    (∃ s2, (processConversion now1 o v1 c1 store).bind (processConversion now2 o v2 c2)
          = Except.ok s2 ∧ countOrder s2 o = countOrder store o + 2)
      ∧ (∀ (v : ℚ) (c : ℕ),
          (handleOrderUpdate o v c store).length = store.length
            ∧ countOrder (handleOrderUpdate o v c store) o = countOrder store o
            ∧ ∀ r ∈ handleOrderUpdate o v c store, r.orderId = o →
                r.totalValue = v ∧ r.itemCount = c) := by
  constructor
  · have step1 : processConversion now1 o v1 c1 store
        = Except.ok (store ++ [⟨mkConversionId o now1, o, v1, c1⟩]) := by
      unfold processConversion conversionCreate
      rw [if_neg (by simp [h1])]
    have step2 : (store ++ [(⟨mkConversionId o now1, o, v1, c1⟩ : ConversionRec)]).any
        (fun c => c.conversionId == mkConversionId o now2) = false := by
      rw [List.any_append]
      simp [h2, h3]
    refine ⟨store ++ [⟨mkConversionId o now1, o, v1, c1⟩]
        ++ [⟨mkConversionId o now2, o, v2, c2⟩], ?_, ?_⟩
    · rw [step1]
      show processConversion now2 o v2 c2 _ = _
      unfold processConversion conversionCreate
      rw [if_neg (by simp [step2])]
    · unfold countOrder
      simp [List.filter_append]
  · intro v c
    refine ⟨by simp [handleOrderUpdate],
      countOrder_handleOrderUpdate o o v c store, ?_⟩
    intro r hr hro
    obtain ⟨c0, hc0, rfl⟩ := List.mem_map.mp hr
    by_cases hmatch : c0.orderId == o
    · simp [hmatch]
    · rw [if_neg hmatch] at hro ⊢
      exact absurd hro (by simpa using hmatch)

/-- Witness for C4 (amended) on the empty store and order `"1001"`. -/
theorem C4_conversion_recording_witness :
    ([] : List ConversionRec).any
        (fun c => c.conversionId == mkConversionId "1001" 0) = false
      ∧ ([] : List ConversionRec).any
        (fun c => c.conversionId == mkConversionId "1001" 1) = false
      ∧ mkConversionId "1001" 0 ≠ mkConversionId "1001" 1
      ∧ ∃ s2, (processConversion 0 "1001" 50 1 []).bind (processConversion 1 "1001" 60 2)
          = Except.ok s2 ∧ countOrder s2 "1001" = countOrder [] "1001" + 2 :=
  ⟨rfl, rfl, by decide,
    (C4_conversion_recording [] "1001" 0 1 50 60 1 2 rfl rfl (by decide)).1⟩

/-- Entry `i` of the funnel output, characterized against the phase-1 base
entries: entry 0 gets rate 100 and keeps drop-off 0; entry `i > 0` gets
rate `visitors[i] / visitors[0] * 100` and drop-off
`visitors[i-1] - visitors[i]` (visitor counts read off the output itself,
which phase 2 leaves untouched). -/
lemma computeFunnel_getElem?_spec (events : List Event)
    (steps : List (String × String)) (sd ed : ℤ) (i : ℕ) (e : FunnelEntry)
    (he : (computeFunnel events steps sd ed)[i]? = some e) :
    (i = 0 → e.conversionRate = 100 ∧ e.dropOff = 0)
      ∧ (0 < i →
          e.conversionRate = ((e.visitors : ℚ)
              / ((funnelVisitorsAt (computeFunnel events steps sd ed) 0 : ℕ) : ℚ)) * 100
            ∧ e.dropOff = ((funnelVisitorsAt (computeFunnel events steps sd ed) (i - 1) : ℕ) : ℤ)
              - ((e.visitors : ℕ) : ℤ)) := by
  unfold computeFunnel at he ⊢
  obtain ⟨hi, -⟩ := List.getElem?_eq_some_iff.mp he
  rw [applyFunnelRates_length, List.length_map] at hi
  obtain ⟨e0, he0⟩ : ∃ e0, (steps.map (fun st =>
      ({ step := st.1, visitors := distinctSessions events st.2 sd ed
         conversionRate := 0, dropOff := 0 } : FunnelEntry)))[i]? = some e0 :=
    ⟨_, List.getElem?_eq_some_iff.mpr ⟨by simpa using hi, rfl⟩⟩
  have htrans := applyFunnelRates_getElem? _ i e0 he0
  rw [htrans] at he
  have he_eq := (Option.some_inj.mp he).symm
  subst he_eq
  have h00 : e0.conversionRate = 0 ∧ e0.dropOff = 0 := by
    obtain ⟨st, -, hst⟩ := List.mem_map.mp (List.getElem?_mem he0)
    rw [← hst]
    exact ⟨rfl, rfl⟩
  constructor
  · intro h0
    subst h0
    exact ⟨by simp, by simpa using h00.2⟩
  · intro hpos
    have hne : ¬ (i = 0) := by omega
    constructor
    · show (if i = 0 then (100 : ℚ) else _) = _
      rw [if_neg hne]
      rw [funnelVisitorsAt_applyFunnelRates]
      by_cases hv : 0 < funnelVisitorsAt (steps.map (fun st =>
          ({ step := st.1, visitors := distinctSessions events st.2 sd ed
             conversionRate := 0, dropOff := 0 } : FunnelEntry))) 0
      · rw [if_pos hv]
      · rw [if_neg hv]
        rw [Nat.eq_zero_of_not_pos hv]
        simp
    · show (if 0 < i then _ else e0.dropOff) = _
      rw [if_pos hpos]
      rw [funnelVisitorsAt_applyFunnelRates]

/-- C5: the funnel reports, per step, the number of distinct sessions with a
matching event in the window; step 0's conversion rate is 100, step `i > 0`'s
is `visitors[i] / visitors[0] * 100` (relative to step 0) with drop-off
`visitors[i-1] - visitors[i]`; and visitor counts 100, 60, 20, 5 yield rates
100, 60, 20, 5 and drop-offs 0, 40, 40, 15. -/
theorem C5_funnel_rates (events : List Event) (steps : List (String × String))
    (sd ed : ℤ) (i : ℕ) (e : FunnelEntry) :
    ((computeFunnel events steps sd ed).map (fun en => en.visitors)
        = steps.map (fun st => distinctSessions events st.2 sd ed))
      ∧ ((computeFunnel events steps sd ed)[i]? = some e →
          (i = 0 → e.conversionRate = 100 ∧ e.dropOff = 0)
            ∧ (0 < i →
                e.conversionRate = ((e.visitors : ℚ)
                    / ((funnelVisitorsAt (computeFunnel events steps sd ed) 0 : ℕ) : ℚ)) * 100
                  ∧ e.dropOff
                    = ((funnelVisitorsAt (computeFunnel events steps sd ed) (i - 1) : ℕ) : ℤ)
                      - ((e.visitors : ℕ) : ℤ)))
      ∧ (applyFunnelRates
            [⟨"Landing Page Views", 100, 0, 0⟩, ⟨"Product Views", 60, 0, 0⟩,
             ⟨"Add to Cart", 20, 0, 0⟩, ⟨"Purchase", 5, 0, 0⟩]
          = [⟨"Landing Page Views", 100, 100, 0⟩, ⟨"Product Views", 60, 60, 40⟩,
             ⟨"Add to Cart", 20, 20, 40⟩, ⟨"Purchase", 5, 5, 15⟩]) := by
  refine ⟨?_, computeFunnel_getElem?_spec events steps sd ed i e, ?_⟩
  · unfold computeFunnel
    rw [applyFunnelRates_map_visitors, List.map_map]
    rfl
  · norm_num [applyFunnelRates, funnelVisitorsAt, List.range, List.range.loop]

/-- The funnel entry the witness expects at index 1 of the demo funnel. -/
def demoProductEntry : FunnelEntry := ⟨"Product Views", 1, 50, 1⟩

/-- Witness for C5 on a concrete two-step funnel over three events: step 1
reports 1 visitor out of 2, rate 50, drop-off 1. -/
theorem C5_funnel_rates_witness :
    (computeFunnel demoEvents demoSteps 0 10)[1]? = some demoProductEntry
      ∧ (0 : ℕ) < 1
      ∧ (demoProductEntry.conversionRate
          = ((demoProductEntry.visitors : ℚ)
              / ((funnelVisitorsAt (computeFunnel demoEvents demoSteps 0 10) 0 : ℕ) : ℚ)) * 100
        ∧ demoProductEntry.dropOff
          = ((funnelVisitorsAt (computeFunnel demoEvents demoSteps 0 10) (1 - 1) : ℕ) : ℤ)
            - ((demoProductEntry.visitors : ℕ) : ℤ)) := by
  have hbase : demoSteps.map (fun st =>
      ({ step := st.1, visitors := distinctSessions demoEvents st.2 0 10,
         conversionRate := 0, dropOff := 0 } : FunnelEntry))
      = [⟨"Landing Page Views", 2, 0, 0⟩, ⟨"Product Views", 1, 0, 0⟩] := by decide
  have hout : computeFunnel demoEvents demoSteps 0 10
      = [⟨"Landing Page Views", 2, 100, 0⟩, ⟨"Product Views", 1, 50, 1⟩] := by
    unfold computeFunnel
    rw [hbase]
    norm_num [applyFunnelRates, funnelVisitorsAt, List.range, List.range.loop]
  have he : (computeFunnel demoEvents demoSteps 0 10)[1]? = some demoProductEntry := by
    rw [hout]
    rfl
  exact ⟨he, by norm_num,
    ((C5_funnel_rates demoEvents demoSteps 0 10 1 demoProductEntry).2.1 he).2 (by norm_num)⟩

/-- C7, counterexample: with activity timestamps t1 = 0 < t2 = 1000000 and
the t2 call processed first, `expiresAt` ends at t1 + 30min = 1800000, which
is below max(t1, t2) + 30min — the update overwrites `expiresAt` instead of
taking a max, so the claimed order-independent lower bound is false. -/
theorem C7_counterexample_expiry_overwrite :
    (findSession (handleSessionStart 0 sdA (handleSessionStart 1000000 sdA [])) "sess-1").map
        Session.expiresAt = some 1800000
      ∧ ¬ ((1800000 : ℤ) ≥ max 1000000 0 + inactivityWindow) := by
  decide

/-- C7 (amended): each activity recording overwrites `expiresAt` with its own
processing time plus the 30-minute window (no max of existing and new expiry
is taken), so after two recordings the session expires at the second
processing time plus the window; the claimed bound
`max(t1,t2) + window ≤ expiresAt` holds exactly when the calls are processed
in nondecreasing timestamp order. -/
theorem C7_session_expiry_last_write_wins (d : SessionStartData)
    (store : List Session) (t1 t2 : ℤ) :
    ∃ s, findSession (handleSessionStart t2 d (handleSessionStart t1 d store)) d.sessionId
        = some s
      ∧ s.expiresAt = t2 + inactivityWindow
      ∧ (t1 ≤ t2 → max t1 t2 + inactivityWindow ≤ s.expiresAt) := by
  obtain ⟨s, hs, -, hexp⟩ :=
    findSession_handleSessionStart t2 d (handleSessionStart t1 d store)
  exact ⟨s, hs, hexp, fun hle => by rw [hexp, max_eq_right hle]⟩

/-- Witness for C7 (amended) with in-order calls at times 0 and 5. -/
theorem C7_session_expiry_last_write_wins_witness :
    (0 : ℤ) ≤ 5
      ∧ ∃ s, findSession (handleSessionStart 5 sdA (handleSessionStart 0 sdA [])) sdA.sessionId
          = some s
        ∧ s.expiresAt = 5 + inactivityWindow
        ∧ ((0 : ℤ) ≤ 5 → max 0 5 + inactivityWindow ≤ s.expiresAt) :=
  ⟨by norm_num, C7_session_expiry_last_write_wins sdA [] 0 5⟩

/-- C9, counterexample: a session whose `utmSource` is empty receives further
activity carrying `utmSource = "google"`, yet after the update the field is
still empty — the update branch discards newly-observed context entirely, so
no empty-field merge happens. -/
theorem C9_counterexample_no_merge :
    (findSession (handleSessionStart 100 sdGoogle [sessEmpty]) "sess-1").map
        Session.utmSource = some none
      ∧ some (none : Option String) ≠ some (some "google") := by
  decide

/-- C9 (amended): recording activity for an existing session changes exactly
`updatedAt` and `expiresAt` and nothing else — all previously captured
context fields are preserved (so first-touch values are never overwritten),
and no newly-observed context is merged in, not even into empty fields; for
an absent session the full payload context is captured by the create
branch. -/
theorem C9_session_update_frame (now : ℤ) (d : SessionStartData)
    (store : List Session) :
    (∀ s0 : Session, findSession store d.sessionId = some s0 →
        findSession (handleSessionStart now d store) d.sessionId
          = some { s0 with updatedAt := now, expiresAt := now + inactivityWindow })
      ∧ (findSession store d.sessionId = none →
          findSession (handleSessionStart now d store) d.sessionId
            = some (createSession now d)) :=
  ⟨fun s0 h => findSession_handleSessionStart_of_found now d store s0 h,
   fun h => findSession_handleSessionStart_of_absent now d store h⟩

/-- Witness for C9 (amended) on the concrete store containing `sessEmpty`. -/
theorem C9_session_update_frame_witness :
    findSession [sessEmpty] sdGoogle.sessionId = some sessEmpty
      ∧ findSession (handleSessionStart 100 sdGoogle [sessEmpty]) sdGoogle.sessionId
        = some { sessEmpty with updatedAt := 100, expiresAt := 100 + inactivityWindow } :=
  ⟨rfl, (C9_session_update_frame 100 sdGoogle [sessEmpty]).1 sessEmpty rfl⟩

end AttributionDashboard
